import Mathlib

/-!
Verification of the history-to-curve rendering pipeline and the setpoint
adjustment logic of the climate card.

Numbers are modelled as exact rationals (the source operates on JavaScript
float64 values; the claims under verification are structural — lengths,
retention of state, path shape, clamping — and do not depend on rounding).
Division by zero yields 0 in this embedding (JavaScript would give NaN or
Infinity); every place where this matters is noted next to the definition.

The two copies of the card present in the repository are embedded in the
namespaces V1 (the richer variant: configurable height/tension, buffered
range, Gaussian two-pass smoothing) and V2 (the simpler variant: fixed
height 50, plain moving average, unbuffered range).
-/

/-- JavaScript default via the logical-or idiom, used as
`config.graph_hours || 24` in setConfig: a missing value or the (falsy)
number 0 falls back to the default. -/
def jsNumOr (v : Option ℚ) (d : ℚ) : ℚ :=
  match v with
  | none => d
  | some x => if x = 0 then d else x

/-- JavaScript default via the logical-or idiom on strings: a missing value
or the (falsy) empty string falls back to the default. -/
def jsStrOr (v : Option String) (d : String) : String :=
  match v with
  | none => d
  | some s => if s = "" then d else s

/-- Math.min over a spread non-empty array (the sources only apply it to
non-empty arrays; the empty case, Infinity in JavaScript, is given a dummy
value 0 here and never reached in any theorem). -/
def listMin : List ℚ → ℚ
  | [] => 0
  | x :: xs => xs.foldl min x

/-- Math.max over a spread non-empty array; see listMin. -/
def listMax : List ℚ → ℚ
  | [] => 0
  | x :: xs => xs.foldl max x

/-- Index range of the inner smoothing loop:
j from max(0, i - half) to min(len - 1, i + half) inclusive
(natural subtraction realizes the max with 0). -/
def windowIndices (len i half : ℕ) : List ℕ :=
  let lo := i - half
  let hi := min (len - 1) (i + half)
  (List.range (hi + 1 - lo)).map (fun k => k + lo)

/-- sampleData, identical in both variants of the card
(climate-card-test.ts lines 282-299 and 1169-1186): stride selection of
targetPoints indices by floor(i * length/target), then the last original
sample is appended whenever the selected points do not already end with its
value. Out-of-range reads (never reached: the stride index stays below the
length) are given default 0. -/
def sampleData (data : List ℚ) (targetPoints : ℕ) : List ℚ :=
  if data.length ≤ targetPoints then data
  else
    let step : ℚ := (data.length : ℚ) / (targetPoints : ℚ)
    let result := (List.range targetPoints).map
      (fun (i : ℕ) => data.getD (⌊(i : ℚ) * step⌋).toNat 0)
    if 0 < result.length ∧
        result.getD (result.length - 1) 0 ≠ data.getD (data.length - 1) 0 then
      result ++ [data.getD (data.length - 1) 0]
    else
      result

namespace V1

/-- smoothData of the richer variant (climate-card-test.ts lines 185-228):
a weighted moving average over a window followed by a second uniform pass of
radius 2. The weight exp(-(distance^2)/(windowSize/2)) is transcendental, so
the weight is an abstract parameter w of the window size and the index
distance; every theorem below holds for an arbitrary weight, in particular
for the Gaussian weight of the source. -/
def smoothData (w : ℕ → ℕ → ℚ) (data : List ℚ) (windowSize : ℕ) : List ℚ :=
  if data.length ≤ windowSize then data
  else
    let firstPass := (List.range data.length).map (fun i =>
      let idxs := windowIndices data.length i (windowSize / 2)
      let sum := idxs.foldl
        (fun acc j => acc + data.getD j 0 * w windowSize (max i j - min i j)) 0
      let weightSum := idxs.foldl
        (fun acc j => acc + w windowSize (max i j - min i j)) 0
      sum / weightSum)
    (List.range firstPass.length).map (fun i =>
      let idxs := windowIndices firstPass.length i 2
      let sum := idxs.foldl (fun acc j => acc + firstPass.getD j 0) 0
      sum / (idxs.length : ℚ))

/-- Range computation of the richer variant, extracted verbatim from
updateGraphData (climate-card-test.ts lines 253-261): a buffer of at least 1
around the raw min/max, then floor/ceil to integers. -/
def rangeOf (rawData : List ℚ) : ℚ × ℚ :=
  let rawMin := listMin rawData
  let rawMax := listMax rawData
  let buffer := max 1 ((rawMax - rawMin) * 0.2)
  (((⌊rawMin - buffer⌋ : ℤ) : ℚ), ((⌈rawMax + buffer⌉ : ℤ) : ℚ))

end V1

namespace V2

/-- smoothData of the simpler variant (climate-card-test.ts lines
1102-1123): one uniform moving-average pass. -/
def smoothData (data : List ℚ) (windowSize : ℕ) : List ℚ :=
  if data.length ≤ windowSize then data
  else
    (List.range data.length).map (fun i =>
      let idxs := windowIndices data.length i (windowSize / 2)
      let sum := idxs.foldl (fun acc j => acc + data.getD j 0) 0
      sum / (idxs.length : ℚ))

end V2

/-- Digits of a natural number, most significant first, with explicit fuel
(the first argument; fuel n + 1 suffices for the number n). Each produced
character is a decimal digit, which the no-C lemmas below rely on. -/
def natDigits : ℕ → ℕ → List Char
  | 0, _ => []
  | fuel + 1, n =>
    if n < 10 then [Char.ofNat (48 + n)]
    else natDigits fuel (n / 10) ++ [Char.ofNat (48 + n % 10)]

/-- Stand-in for JavaScript number-to-string conversion inside template
literals: sign, numerator digits, and denominator when it is not 1. The
digit rendering differs from the float formatting of the host language, but
no claim under verification depends on how an individual number is printed,
only on the command letters and separators around the numbers. -/
def ratStr (q : ℚ) : String :=
  String.mk ((if q.num < 0 then ['-'] else []) ++
    natDigits (q.num.natAbs + 1) q.num.natAbs ++
    (if q.den = 1 then [] else '/' :: natDigits (q.den + 1) q.den))

namespace V1

/-- Observed state of the richer card variant that the graph rendering and
graph update read and write (the fields _graphData, _graphMin, _graphMax,
_graphHeight, _graphCurveTension, _graphLineColor, _graphFillColor,
_graphLineWidth of the class; leading underscores are dropped). -/
structure CardState where
  graphData : List ℚ
  graphMin : ℚ
  graphMax : ℚ
  graphHeight : ℚ
  graphCurveTension : ℚ
  graphLineColor : String
  graphFillColor : String
  graphLineWidth : ℚ
  deriving DecidableEq

/-- generateGraphPath of the richer variant (climate-card-test.ts lines
578-637): scale the points into the 500 x height viewBox, emit a move-to
followed by one cubic segment per consecutive pair, with control points from
blended tangents (0.7 toward the nearest neighbour two away, 0.3 toward the
farther one) scaled by the tension, and close down to the baseline when
includeBottom is set. Mapping with the element index is realized as a map
over List.range of the length; x of a single point is 0/0, which is 0 here
(NaN in the host language — the single-point claims only concern the path
shape, not that coordinate). -/
def generateGraphPath (s : CardState) (includeBottom : Bool) : String :=
  if s.graphData.length = 0 then "" else
  let width : ℚ := 500
  let height := s.graphHeight
  let dataPoints := s.graphData.length
  let range := if s.graphMax - s.graphMin = 0 then 1 else s.graphMax - s.graphMin
  let points := (List.range dataPoints).map (fun index =>
    let value := s.graphData.getD index 0
    (((index : ℚ) / ((dataPoints : ℚ) - 1)) * width,
     height - ((value - s.graphMin) / range) * height * 0.95 + height * 0.025))
  let start := points.getD 0 (0, 0)
  let path0 := "M" ++ ratStr start.1 ++ "," ++ ratStr start.2
  let path1 := (List.range (points.length - 1)).foldl (fun path i =>
    let current := points.getD i (0, 0)
    let next := points.getD (i + 1) (0, 0)
    let xDiff := next.1 - current.1
    let tension := s.graphCurveTension
    let prev1 := if 0 < i then points.getD (i - 1) (0, 0)
      else (current.1 - xDiff, current.2)
    let prev2 := if 1 < i then points.getD (i - 2) (0, 0) else prev1
    let nextNext1 := if i < points.length - 2 then points.getD (i + 2) (0, 0)
      else (next.1 + xDiff, next.2)
    let nextNext2 := if i < points.length - 3 then points.getD (i + 3) (0, 0)
      else nextNext1
    let tangentX1 := ((next.1 - prev1.1) * 0.7 + (next.1 - prev2.1) * 0.3) * tension
    let tangentY1 := ((next.2 - prev1.2) * 0.7 + (next.2 - prev2.2) * 0.3) * tension
    let tangentX2 := ((nextNext1.1 - current.1) * 0.7 + (nextNext2.1 - current.1) * 0.3) * tension
    let tangentY2 := ((nextNext1.2 - current.2) * 0.7 + (nextNext2.2 - current.2) * 0.3) * tension
    let controlX1 := current.1 + tangentX1 / 3
    let controlY1 := current.2 + tangentY1 / 3
    let controlX2 := next.1 - tangentX2 / 3
    let controlY2 := next.2 - tangentY2 / 3
    path ++ " C" ++ ratStr controlX1 ++ "," ++ ratStr controlY1 ++ " " ++
      ratStr controlX2 ++ "," ++ ratStr controlY2 ++ " " ++
      ratStr next.1 ++ "," ++ ratStr next.2) path0
  if includeBottom then
    path1 ++ " L" ++ ratStr width ++ "," ++ ratStr height ++ " L0," ++
      ratStr height ++ " Z"
  else path1

/-- updateGraphData of the richer variant (climate-card-test.ts lines
230-279) as a state transition on the graph fields. The fetch argument is
the outcome of the awaited history call: error when the call throws, ok with
the rows of history[0] otherwise, each row abstracted to the parseFloat
outcome of its state string (none when the parse yields NaN, which the
filter drops). Any throw is caught and leaves the state untouched, as do an
empty history and a sample list that is empty after parsing. -/
def updateGraphData (w : ℕ → ℕ → ℚ) (s : CardState)
    (fetch : Except Unit (List (List (Option ℚ)))) : CardState :=
  match fetch with
  | .error _ => s
  | .ok history =>
    if 0 < history.length ∧ 0 < (history.headD []).length then
      let rawData := (history.headD []).filterMap id
      if 0 < rawData.length then
        { s with
          graphData := sampleData (smoothData w rawData 9) 50,
          graphMin := (rangeOf rawData).1,
          graphMax := (rangeOf rawData).2 }
      else s
    else s

end V1

namespace V2

/-- Observed graph state of the simpler card variant (fields _graphData,
_graphMin, _graphMax). -/
structure CardState where
  graphData : List ℚ
  graphMin : ℚ
  graphMax : ℚ
  deriving DecidableEq

/-- generateGraphPath of the simpler variant (climate-card-test.ts lines
1471-1510): fixed 500 x 50 viewBox, cubic segments with horizontal control
points at one third and two thirds of each span. -/
def generateGraphPath (s : CardState) (includeBottom : Bool) : String :=
  if s.graphData.length = 0 then "" else
  let width : ℚ := 500
  let height : ℚ := 50
  let dataPoints := s.graphData.length
  let range := if s.graphMax - s.graphMin = 0 then 1 else s.graphMax - s.graphMin
  let points := (List.range dataPoints).map (fun index =>
    let value := s.graphData.getD index 0
    (((index : ℚ) / ((dataPoints : ℚ) - 1)) * width,
     height - ((value - s.graphMin) / range) * height * 0.8 + height * 0.1))
  let start := points.getD 0 (0, 0)
  let path0 := "M" ++ ratStr start.1 ++ "," ++ ratStr start.2
  let path1 := (List.range (points.length - 1)).foldl (fun path i =>
    let current := points.getD i (0, 0)
    let next := points.getD (i + 1) (0, 0)
    let controlX1 := current.1 + (next.1 - current.1) / 3
    let controlY1 := current.2
    let controlX2 := next.1 - (next.1 - current.1) / 3
    let controlY2 := next.2
    path ++ " C" ++ ratStr controlX1 ++ "," ++ ratStr controlY1 ++ " " ++
      ratStr controlX2 ++ "," ++ ratStr controlY2 ++ " " ++
      ratStr next.1 ++ "," ++ ratStr next.2) path0
  if includeBottom then
    path1 ++ " L" ++ ratStr width ++ "," ++ ratStr height ++ " L0," ++
      ratStr height ++ " Z"
  else path1

/-- updateGraphData of the simpler variant (climate-card-test.ts lines
1125-1166): smooth with window 5, sample to 20 points, store the exact
min/max of the sampled data. Same fail-soft handling of the fetch as V1. -/
def updateGraphData (s : CardState)
    (fetch : Except Unit (List (List (Option ℚ)))) : CardState :=
  match fetch with
  | .error _ => s
  | .ok history =>
    if 0 < history.length ∧ 0 < (history.headD []).length then
      let rawData := (history.headD []).filterMap id
      if 0 < rawData.length then
        let sampledData := sampleData (smoothData rawData 5) 20
        { s with
          graphData := sampledData,
          graphMin := listMin sampledData,
          graphMax := listMax sampledData }
      else s
    else s

end V2

/-- Graph-related options of ClimateCardConfig as consumed by setConfig of
the richer variant: numeric options and color/entity strings, each possibly
absent. -/
structure ClimateCardConfig where
  outside_temperature_entity : Option String
  inside_temperature_entity : Option String
  graph_entity : Option String
  graph_hours : Option ℚ
  graph_height : Option ℚ
  graph_line_color : Option String
  graph_fill_color : Option String
  graph_curve_tension : Option ℚ
  graph_line_width : Option ℚ
  deriving DecidableEq

/-- Card fields assigned by setConfig of the richer variant. -/
structure ConfigFields where
  outsideTempEntity : String
  insideTempEntity : String
  graphEntity : String
  graphHours : ℚ
  graphHeight : ℚ
  graphLineColor : String
  graphFillColor : String
  graphCurveTension : ℚ
  graphLineWidth : ℚ
  deriving DecidableEq

/-- setConfig of the richer variant (climate-card-test.ts lines 142-174),
restricted to the graph fields it assigns (the merge of tap/hold actions
into the base class is presentation glue outside the pipeline). Every
option falls back to its default through the logical-or idiom; the line
width alone checks for an explicit 0 first so that 0 remains a valid value.
The function is total: no configuration value is rejected. -/
def setConfig (config : ClimateCardConfig) : ConfigFields :=
  { outsideTempEntity := jsStrOr config.outside_temperature_entity ""
    insideTempEntity := jsStrOr config.inside_temperature_entity ""
    graphEntity := jsStrOr config.graph_entity ""
    graphHours := jsNumOr config.graph_hours 24
    graphHeight := jsNumOr config.graph_height 80
    graphLineColor := jsStrOr config.graph_line_color "rgba(255,255,255,0.5)"
    graphFillColor := jsStrOr config.graph_fill_color "rgba(255,255,255,0.2)"
    graphCurveTension := jsNumOr config.graph_curve_tension 0.3
    graphLineWidth :=
      if config.graph_line_width = some 0 then 0
      else jsNumOr config.graph_line_width 2 }

/-- Climate entity attributes read by the temperature control
(controls/climate-temperature-control, src/unnamed/part_000). -/
structure ClimateAttrs where
  temperature : Option ℚ
  target_temp_low : Option ℚ
  target_temp_high : Option ℚ
  min_temp : Option ℚ
  max_temp : Option ℚ
  deriving DecidableEq

/-- Local visual state of the temperature control (_localTemperature,
_localLowTemperature, _localHighTemperature). -/
structure TempControlState where
  localTemperature : Option ℚ
  localLowTemperature : Option ℚ
  localHighTemperature : Option ℚ
  deriving DecidableEq

/-- _adjustTemperature (part_000 lines 43-60): the value stored into
_localTemperature and dispatched to the set_temperature service, or none
when the entity has no single setpoint (early return, nothing dispatched). -/
def adjustTemperature (attrs : ClimateAttrs) (st : TempControlState)
    (amount : ℚ) : Option ℚ :=
  match attrs.temperature with
  | none => none
  | some t =>
    let current := st.localTemperature.getD t
    let mn := jsNumOr attrs.min_temp 7
    let mx := jsNumOr attrs.max_temp 35
    some (max mn (min mx (current + amount)))

/-- _adjustLowTemperature (part_000 lines 62-85): the adjusted low setpoint,
clamped between min_temp and the smaller of max_temp and the effective high
setpoint. -/
def adjustLowTemperature (attrs : ClimateAttrs) (st : TempControlState)
    (amount : ℚ) : Option ℚ :=
  match attrs.target_temp_low with
  | none => none
  | some tl =>
    let current := st.localLowTemperature.getD tl
    let mn := jsNumOr attrs.min_temp 7
    let highTemp := st.localHighTemperature.getD (jsNumOr attrs.target_temp_high 35)
    let mx := min (jsNumOr attrs.max_temp 35) highTemp
    some (max mn (min mx (current + amount)))

/-- _adjustHighTemperature (part_000 lines 87-110): the adjusted high
setpoint, clamped between the larger of min_temp and the effective low
setpoint, and max_temp. -/
def adjustHighTemperature (attrs : ClimateAttrs) (st : TempControlState)
    (amount : ℚ) : Option ℚ :=
  match attrs.target_temp_high with
  | none => none
  | some th =>
    let current := st.localHighTemperature.getD th
    let lowTemp := st.localLowTemperature.getD (jsNumOr attrs.target_temp_low 7)
    let mn := max (jsNumOr attrs.min_temp 7) lowTemp
    let mx := jsNumOr attrs.max_temp 35
    some (max mn (min mx (current + amount)))

/-- Folding min from a seed below the seed of a max fold stays below it. -/
lemma foldl_min_le_foldl_max (l : List ℚ) :
    ∀ a b : ℚ, a ≤ b → l.foldl min a ≤ l.foldl max b := by
  induction l with
  | nil => intro a b h; simpa using h
  | cons c l ih =>
    intro a b h
    simp only [List.foldl_cons]
    exact ih _ _ (le_trans (min_le_left a c) (le_trans h (le_max_left b c)))

/-- A non-empty list has its minimum below its maximum. -/
lemma listMin_le_listMax (l : List ℚ) (h : l ≠ []) : listMin l ≤ listMax l := by
  cases l with
  | nil => exact absurd rfl h
  | cons x xs => exact foldl_min_le_foldl_max xs x x le_rfl

/-- The optional last element of a non-empty list is its element at index
length - 1 (with any default). -/
lemma getLast?_eq_getD (l : List ℚ) (h : l ≠ []) :
    l.getLast? = some (l.getD (l.length - 1) 0) := by
  have hlen : 0 < l.length := List.length_pos.mpr h
  rw [List.getLast?_eq_getElem?, List.getD_eq_getElem?_getD]
  cases hx : l[l.length - 1]? with
  | none =>
    rw [List.getElem?_eq_none_iff] at hx
    omega
  | some a => rfl

/-- Every character emitted by natDigits is a decimal digit character. -/
lemma natDigits_mem (f : ℕ) : ∀ n c, c ∈ natDigits f n →
    ∃ d, d < 10 ∧ c = Char.ofNat (48 + d) := by
  induction f with
  | zero => intro n c hc; simp [natDigits] at hc
  | succ f ih =>
    intro n c hc
    rw [natDigits] at hc
    by_cases hn : n < 10
    · rw [if_pos hn] at hc
      simp only [List.mem_singleton] at hc
      exact ⟨n, hn, hc⟩
    · rw [if_neg hn] at hc
      rcases List.mem_append.mp hc with h1 | h2
      · exact ih _ _ h1
      · simp only [List.mem_singleton] at h2
        exact ⟨n % 10, Nat.mod_lt _ (by omega), h2⟩

/-- No decimal digit character is the letter C. -/
lemma digitChar_ne_C : ∀ d : ℕ, d < 10 → Char.ofNat (48 + d) ≠ 'C' := by decide

/-- The rendering of a rational number never contains the letter C, so a
cubic command can only come from a curve segment of the path builder. -/
lemma ratStr_no_C (q : ℚ) : 'C' ∉ (ratStr q).data := by
  intro hc
  have hdata : (ratStr q).data =
      (if q.num < 0 then ['-'] else []) ++
        natDigits (q.num.natAbs + 1) q.num.natAbs ++
        (if q.den = 1 then [] else '/' :: natDigits (q.den + 1) q.den) := rfl
  rw [hdata] at hc
  rcases List.mem_append.mp hc with h1 | h2
  · rcases List.mem_append.mp h1 with h3 | h4
    · split_ifs at h3 <;> simp_all
    · obtain ⟨d, hd, he⟩ := natDigits_mem _ _ _ h4
      exact digitChar_ne_C d hd he.symm
  · split_ifs at h2 with hden
    · simp at h2
    · rcases List.mem_cons.mp h2 with h5 | h6
      · simp at h5
      · obtain ⟨d, hd, he⟩ := natDigits_mem _ _ _ h6
        exact digitChar_ne_C d hd he.symm

/-- Characters of an appended string are the appended character lists. -/
lemma strData_append (a b : String) : (a ++ b).data = a.data ++ b.data := rfl

/-- C6: for every input list of length L and every window size, smoothData
returns a list of length exactly L, both in the Gaussian-weighted two-pass
variant (for an arbitrary weight function, hence for the Gaussian weight of
the source) and in the simple moving-average variant. -/
theorem smoothData_length_preserved (w : ℕ → ℕ → ℚ) (data : List ℚ)
    (windowSize : ℕ) :
    (V1.smoothData w data windowSize).length = data.length ∧
    (V2.smoothData data windowSize).length = data.length := by
  constructor
  · rw [V1.smoothData]
    split_ifs with h
    · rfl
    · simp
  · rw [V2.smoothData]
    split_ifs with h
    · rfl
    · simp

/-- C7: whenever the input length is at most the window size, smoothData
returns the input unchanged (identity pass-through), in both variants. -/
theorem smoothData_passthrough (w : ℕ → ℕ → ℚ) (data : List ℚ)
    (windowSize : ℕ) (h : data.length ≤ windowSize) :
    V1.smoothData w data windowSize = data ∧
    V2.smoothData data windowSize = data := by
  constructor
  · rw [V1.smoothData, if_pos h]
  · rw [V2.smoothData, if_pos h]

/-- Witness for smoothData_passthrough: a three-sample series below both
window sizes passes through unchanged. -/
theorem smoothData_passthrough_witness :
    V1.smoothData (fun _ _ => 1) [10, 20, 10] 9 = [10, 20, 10] ∧
    V2.smoothData [10, 20, 10] 9 = [10, 20, 10] :=
  smoothData_passthrough (fun _ _ => 1) [10, 20, 10] 9 (by decide)

/-- C1 counterexample: for input [0, 1, 2] and target 2 the input is longer
than the target, yet sampleData returns all three points (the stride picks
[0, 1] and the forced inclusion of the final sample appends 2), so the
output length is 3, not the target 2 the claim demands. -/
theorem sampleData_length_counterexample :
    2 < ([0, 1, 2] : List ℚ).length ∧
    sampleData [0, 1, 2] 2 = [0, 1, 2] ∧
    ¬ (sampleData ([0, 1, 2] : List ℚ) 2).length = 2 := by
  have he : sampleData [0, 1, 2] 2 = [0, 1, 2] := by
    rw [sampleData, if_neg (by decide)]
    norm_num [List.range_succ]
  exact ⟨by decide, he, by rw [he]; decide⟩

/-- C1 amended: when the input length L is at most the target T the input
passes through unchanged; when L exceeds T the output has length T or T + 1
(T when the stride-selected points already end with the value of the final
sample, T + 1 when that final sample had to be appended), and for a positive
target the output always ends with the input's last element. -/
theorem sampleData_resample_bounds (data : List ℚ) (targetPoints : ℕ) :
    (data.length ≤ targetPoints → sampleData data targetPoints = data) ∧
    (targetPoints < data.length →
      ((sampleData data targetPoints).length = targetPoints ∨
        (sampleData data targetPoints).length = targetPoints + 1) ∧
      (1 ≤ targetPoints →
        (sampleData data targetPoints).getLast? = data.getLast?)) := by
  constructor
  · intro h
    rw [sampleData, if_pos h]
  · intro hlt
    have hnle : ¬ data.length ≤ targetPoints := not_le.mpr hlt
    have hdne : data ≠ [] := by
      intro h
      rw [h] at hlt
      simp at hlt
    rw [sampleData, if_neg hnle]
    simp only []
    set R := (List.range targetPoints).map
      (fun (i : ℕ) => data.getD
        (⌊(i : ℚ) * ((data.length : ℚ) / (targetPoints : ℚ))⌋).toNat 0) with hR
    have hRlen : R.length = targetPoints := by rw [hR]; simp
    constructor
    · split_ifs with hc
      · right
        simp [hRlen]
      · left
        exact hRlen
    · intro hT1
      have hRne : R ≠ [] := by
        intro h
        rw [h] at hRlen
        simp at hRlen
        omega
      split_ifs with hc
      · rw [List.getLast?_concat, getLast?_eq_getD data hdne]
      · push_neg at hc
        have heq := hc (by rw [hRlen]; omega)
        rw [getLast?_eq_getD _ hRne, getLast?_eq_getD data hdne, heq]

/-- Witness for sampleData_resample_bounds: a two-sample series passes
through a target of 5, and resampling [0, 1, 2] to 2 points yields 2 or 3
points ending with the last input sample. -/
theorem sampleData_resample_bounds_witness :
    sampleData ([1, 2] : List ℚ) 5 = [1, 2] ∧
    ((sampleData ([0, 1, 2] : List ℚ) 2).length = 2 ∨
      (sampleData ([0, 1, 2] : List ℚ) 2).length = 2 + 1) ∧
    (sampleData ([0, 1, 2] : List ℚ) 2).getLast? =
      ([0, 1, 2] : List ℚ).getLast? :=
  ⟨(sampleData_resample_bounds [1, 2] 5).1 (by decide),
   ((sampleData_resample_bounds [0, 1, 2] 2).2 (by decide)).1,
   ((sampleData_resample_bounds [0, 1, 2] 2).2 (by decide)).2 (by decide)⟩

/-- C2 counterexample: in the simpler variant the stored range is the exact
min/max of the sampled data without any buffer, so a single parsed sample 18
produces rangeMax - rangeMin = 0, violating the claimed bound
rangeMax - rangeMin ≥ 1. -/
theorem range_invariant_counterexample :
    ¬ (1 ≤ (V2.updateGraphData ⟨[], 0, 0⟩ (.ok [[some 18]])).graphMax -
        (V2.updateGraphData ⟨[], 0, 0⟩ (.ok [[some 18]])).graphMin) := by
  have hu : V2.updateGraphData ⟨[], 0, 0⟩ (.ok [[some 18]]) =
      ⟨[18], 18, 18⟩ := rfl
  rw [hu]
  norm_num

/-- C2 amended: the claimed range invariant holds for the richer variant,
whose buffered computation guarantees
rangeMin ≤ min(input) ≤ max(input) ≤ rangeMax and a span of at least 1 (in
fact at least 2) for every non-empty list of parsed samples; the simpler
variant stores the exact min/max of the sampled data instead, where the
span can be 0 (see the counterexample). -/
theorem rangeOf_invariant (l : List ℚ) (h : l ≠ []) :
    1 ≤ (V1.rangeOf l).2 - (V1.rangeOf l).1 ∧
    (V1.rangeOf l).1 ≤ listMin l ∧ listMin l ≤ listMax l ∧
    listMax l ≤ (V1.rangeOf l).2 := by
  have hmm := listMin_le_listMax l h
  have hb : (1 : ℚ) ≤ max 1 ((listMax l - listMin l) * 0.2) := le_max_left _ _
  have h1 : ((⌊listMin l - max 1 ((listMax l - listMin l) * 0.2)⌋ : ℤ) : ℚ) ≤
      listMin l - max 1 ((listMax l - listMin l) * 0.2) := Int.floor_le _
  have h2 : listMax l + max 1 ((listMax l - listMin l) * 0.2) ≤
      ((⌈listMax l + max 1 ((listMax l - listMin l) * 0.2)⌉ : ℤ) : ℚ) :=
    Int.le_ceil _
  rw [V1.rangeOf]
  refine ⟨by linarith, by linarith, hmm, by linarith⟩

/-- Witness for rangeOf_invariant at the singleton input [18]: the buffered
range floor(18 - 1) = 17, ceil(18 + 1) = 19 brackets the input with span 2. -/
theorem rangeOf_invariant_witness :
    1 ≤ (V1.rangeOf [18]).2 - (V1.rangeOf [18]).1 ∧
    (V1.rangeOf [18]).1 ≤ listMin [18] ∧ listMin [18] ≤ listMax [18] ∧
    listMax [18] ≤ (V1.rangeOf [18]).2 :=
  rangeOf_invariant [18] (by decide)

/-- C3: when the history fetch throws, or when every fetched sample fails
numeric parsing (the filtered list is empty), updateGraphData leaves the
stored graphData/graphMin/graphMax untouched, in both variants; the state is
only replaced on a successful fetch with at least one numeric sample. -/
theorem updateGraphData_fail_soft (w : ℕ → ℕ → ℚ) (s1 : V1.CardState)
    (s2 : V2.CardState) (history : List (List (Option ℚ)))
    (hempty : (history.headD []).filterMap id = []) :
    V1.updateGraphData w s1 (.error ()) = s1 ∧
    V2.updateGraphData s2 (.error ()) = s2 ∧
    V1.updateGraphData w s1 (.ok history) = s1 ∧
    V2.updateGraphData s2 (.ok history) = s2 := by
  have hempty2 : (history.head?.getD []).filterMap id = [] := by
    rw [← List.headD_eq_head?] at *
    exact hempty
  refine ⟨rfl, rfl, ?_, ?_⟩
  · simp [V1.updateGraphData, hempty2]
  · simp [V2.updateGraphData, hempty2]

/-- Witness for updateGraphData_fail_soft: a fetch whose single row parses
to NaN leaves a concrete prior state unchanged in both variants. -/
theorem updateGraphData_fail_soft_witness :
    V1.updateGraphData (fun _ _ => 1) ⟨[5], 0, 1, 80, 0.3, "w", "f", 2⟩
      (.error ()) = ⟨[5], 0, 1, 80, 0.3, "w", "f", 2⟩ ∧
    V2.updateGraphData ⟨[5], 0, 1⟩ (.error ()) = ⟨[5], 0, 1⟩ ∧
    V1.updateGraphData (fun _ _ => 1) ⟨[5], 0, 1, 80, 0.3, "w", "f", 2⟩
      (.ok [[none]]) = ⟨[5], 0, 1, 80, 0.3, "w", "f", 2⟩ ∧
    V2.updateGraphData ⟨[5], 0, 1⟩ (.ok [[none]]) = ⟨[5], 0, 1⟩ :=
  updateGraphData_fail_soft (fun _ _ => 1) _ _ [[none]] rfl

/-- C8: for the flat raw input of ten samples all equal to 18 the richer
variant stores rangeMin = 17 and rangeMax = 19: the buffer is
max(1, 0 * 0.2) = 1, rangeMin = floor(18 - 1), rangeMax = ceil(18 + 1), so
the stored range spans exactly 2. This holds for every smoothing weight and
every prior state. -/
theorem scenarioA_flat_range (w : ℕ → ℕ → ℚ) (s : V1.CardState) :
    (V1.updateGraphData w s (.ok [[some 18, some 18, some 18, some 18,
        some 18, some 18, some 18, some 18, some 18, some 18]])).graphMin =
      17 ∧
    (V1.updateGraphData w s (.ok [[some 18, some 18, some 18, some 18,
        some 18, some 18, some 18, some 18, some 18, some 18]])).graphMax =
      19 ∧
    (V1.updateGraphData w s (.ok [[some 18, some 18, some 18, some 18,
        some 18, some 18, some 18, some 18, some 18, some 18]])).graphMax -
      (V1.updateGraphData w s (.ok [[some 18, some 18, some 18, some 18,
        some 18, some 18, some 18, some 18, some 18, some 18]])).graphMin =
      2 := by
  have hrange : V1.rangeOf [18, 18, 18, 18, 18, 18, 18, 18, 18, 18] =
      (17, 19) := by
    rw [V1.rangeOf]
    have hmin : listMin [18, 18, 18, 18, 18, 18, 18, 18, 18, 18] = 18 := by
      simp [listMin, min_self]
    have hmax : listMax [18, 18, 18, 18, 18, 18, 18, 18, 18, 18] = 18 := by
      simp [listMax, max_self]
    rw [hmin, hmax]
    norm_num
  have hu : V1.updateGraphData w s (.ok [[some 18, some 18, some 18, some 18,
      some 18, some 18, some 18, some 18, some 18, some 18]]) =
      { s with
        graphData := sampleData (V1.smoothData w
          [18, 18, 18, 18, 18, 18, 18, 18, 18, 18] 9) 50,
        graphMin := (V1.rangeOf [18, 18, 18, 18, 18, 18, 18, 18, 18, 18]).1,
        graphMax :=
          (V1.rangeOf [18, 18, 18, 18, 18, 18, 18, 18, 18, 18]).2 } := by
    rw [V1.updateGraphData]
    rfl
  rw [hu, hrange]
  norm_num

/-- C4 counterexample: setConfig performs no range clamping. A configured
lookback of 1000 hours (outside 1-168), a curve tension of 5 (outside
0.1-1.0) and a negative line width -3 are all stored verbatim instead of
being clamped to the nearest valid value. -/
theorem setConfig_clamp_counterexample :
    (setConfig ⟨none, none, none, some 1000, none, none, none, some 5,
        some (-3)⟩).graphHours = 1000 ∧
    168 < (setConfig ⟨none, none, none, some 1000, none, none, none, some 5,
        some (-3)⟩).graphHours ∧
    (setConfig ⟨none, none, none, some 1000, none, none, none, some 5,
        some (-3)⟩).graphCurveTension = 5 ∧
    1 < (setConfig ⟨none, none, none, some 1000, none, none, none, some 5,
        some (-3)⟩).graphCurveTension ∧
    (setConfig ⟨none, none, none, some 1000, none, none, none, some 5,
        some (-3)⟩).graphLineWidth = -3 ∧
    (setConfig ⟨none, none, none, some 1000, none, none, none, some 5,
        some (-3)⟩).graphLineWidth < 0 := by
  have hh : (setConfig ⟨none, none, none, some 1000, none, none, none,
      some 5, some (-3)⟩).graphHours = 1000 := by
    simp [setConfig, jsNumOr]
  have ht : (setConfig ⟨none, none, none, some 1000, none, none, none,
      some 5, some (-3)⟩).graphCurveTension = 5 := by
    simp [setConfig, jsNumOr]
  have hl : (setConfig ⟨none, none, none, some 1000, none, none, none,
      some 5, some (-3)⟩).graphLineWidth = -3 := by
    simp [setConfig, jsNumOr]
  refine ⟨hh, ?_, ht, ?_, hl, ?_⟩
  · rw [hh]; norm_num
  · rw [ht]; norm_num
  · rw [hl]; norm_num

/-- C4 amended: setConfig substitutes documented defaults for missing (or
falsy) options and keeps an explicit 0 line width, but performs no range
clamping: any supplied non-zero numeric value — however far out of range —
is stored unchanged. The function itself is total, so no configuration is
rejected with an error. -/
theorem setConfig_stores_unclamped (config : ClimateCardConfig)
    (hv tv lv : ℚ)
    (hh : config.graph_hours = some hv) (hh0 : hv ≠ 0)
    (ht : config.graph_curve_tension = some tv) (ht0 : tv ≠ 0)
    (hl : config.graph_line_width = some lv) (hl0 : lv ≠ 0) :
    (setConfig config).graphHours = hv ∧
    (setConfig config).graphCurveTension = tv ∧
    (setConfig config).graphLineWidth = lv := by
  refine ⟨?_, ?_, ?_⟩ <;>
    simp [setConfig, jsNumOr, hh, ht, hl, hh0, ht0, hl0]

/-- Witness for setConfig_stores_unclamped: out-of-range values 1000, 5 and
-3 are stored verbatim. -/
theorem setConfig_stores_unclamped_witness :
    (setConfig ⟨none, none, none, some 1000, none, none, none, some 5,
        some (-3)⟩).graphHours = 1000 ∧
    (setConfig ⟨none, none, none, some 1000, none, none, none, some 5,
        some (-3)⟩).graphCurveTension = 5 ∧
    (setConfig ⟨none, none, none, some 1000, none, none, none, some 5,
        some (-3)⟩).graphLineWidth = -3 :=
  setConfig_stores_unclamped _ 1000 5 (-3) rfl (by norm_num) rfl
    (by norm_num) rfl (by norm_num)

/-- C5: generateGraphPath is deterministic. It is a pure function of the
graph data (graphData, graphMin, graphMax), the style settings (height,
tension; fixed in the simpler variant) and the includeBottom flag: two card
states that agree on exactly those fields — even if they differ in every
other field, such as colors or line width — produce byte-identical path
strings, in both variants. -/
theorem generateGraphPath_deterministic (s s' : V1.CardState)
    (t t' : V2.CardState) (b : Bool)
    (h1 : s.graphData = s'.graphData) (h2 : s.graphMin = s'.graphMin)
    (h3 : s.graphMax = s'.graphMax) (h4 : s.graphHeight = s'.graphHeight)
    (h5 : s.graphCurveTension = s'.graphCurveTension)
    (h6 : t.graphData = t'.graphData) (h7 : t.graphMin = t'.graphMin)
    (h8 : t.graphMax = t'.graphMax) :
    V1.generateGraphPath s b = V1.generateGraphPath s' b ∧
    V2.generateGraphPath t b = V2.generateGraphPath t' b := by
  constructor
  · simp only [V1.generateGraphPath, h1, h2, h3, h4, h5]
  · simp only [V2.generateGraphPath, h6, h7, h8]

/-- Witness for generateGraphPath_deterministic: two states with identical
graph data and style but different colors and line width render the same
fill path, and equal V2 states render the same stroke path. -/
theorem generateGraphPath_deterministic_witness :
    V1.generateGraphPath ⟨[18, 19], 17, 20, 80, 0.3, "white", "blue", 2⟩
        true =
      V1.generateGraphPath ⟨[18, 19], 17, 20, 80, 0.3, "red", "green", 0⟩
        true ∧
    V2.generateGraphPath ⟨[18, 19], 17, 20⟩ true =
      V2.generateGraphPath ⟨[18, 19], 17, 20⟩ true :=
  generateGraphPath_deterministic _ _ _ _ true rfl rfl rfl rfl rfl rfl rfl rfl

/-- A path consisting of a single move-to command contains no letter C. -/
lemma moveOnly_no_C (a b : ℚ) :
    'C' ∉ ("M" ++ ratStr a ++ "," ++ ratStr b).data := by
  intro hc
  have hM : ("M" : String).data = ['M'] := rfl
  have hco : ("," : String).data = [','] := rfl
  rw [strData_append, strData_append, strData_append, hM, hco] at hc
  rcases List.mem_append.mp hc with h1 | h2
  · rcases List.mem_append.mp h1 with h3 | h4
    · rcases List.mem_append.mp h3 with h5 | h6
      · exact absurd h5 (by decide)
      · exact ratStr_no_C a h6
    · exact absurd h4 (by decide)
  · exact ratStr_no_C b h2

/-- C9: on an empty data list generateGraphPath returns the empty string
(for either value of includeBottom), and on a single-point data list the
stroke path consists of a single move-to command — in particular it contains
no cubic Bezier command letter C — in both variants. -/
theorem generateGraphPath_degenerate (s1 : V1.CardState) (s2 : V2.CardState)
    (b : Bool) (v : ℚ) (t1 : V1.CardState) (t2 : V2.CardState)
    (h1 : s1.graphData = []) (h2 : s2.graphData = [])
    (hv1 : t1.graphData = [v]) (hv2 : t2.graphData = [v]) :
    V1.generateGraphPath s1 b = "" ∧
    V2.generateGraphPath s2 b = "" ∧
    (∃ px py, V1.generateGraphPath t1 false =
      "M" ++ ratStr px ++ "," ++ ratStr py) ∧
    'C' ∉ (V1.generateGraphPath t1 false).data ∧
    (∃ px py, V2.generateGraphPath t2 false =
      "M" ++ ratStr px ++ "," ++ ratStr py) ∧
    'C' ∉ (V2.generateGraphPath t2 false).data := by
  have he1 : V1.generateGraphPath s1 b = "" := by
    simp [V1.generateGraphPath, h1]
  have he2 : V2.generateGraphPath s2 b = "" := by
    simp [V2.generateGraphPath, h2]
  have hs1 : ∃ px py, V1.generateGraphPath t1 false =
      "M" ++ ratStr px ++ "," ++ ratStr py := by
    simp [V1.generateGraphPath, hv1]
    exact ⟨_, _, rfl⟩
  have hs2 : ∃ px py, V2.generateGraphPath t2 false =
      "M" ++ ratStr px ++ "," ++ ratStr py := by
    simp [V2.generateGraphPath, hv2]
    exact ⟨_, _, rfl⟩
  obtain ⟨px1, py1, heq1⟩ := hs1
  obtain ⟨px2, py2, heq2⟩ := hs2
  refine ⟨he1, he2, ⟨px1, py1, heq1⟩, ?_, ⟨px2, py2, heq2⟩, ?_⟩
  · rw [heq1]
    exact moveOnly_no_C px1 py1
  · rw [heq2]
    exact moveOnly_no_C px2 py2

/-- Witness for generateGraphPath_degenerate: concrete empty-data and
single-point states. -/
theorem generateGraphPath_degenerate_witness :
    V1.generateGraphPath ⟨[], 17, 19, 80, 0.3, "w", "f", 2⟩ true = "" ∧
    V2.generateGraphPath ⟨[], 17, 19⟩ true = "" ∧
    (∃ px py, V1.generateGraphPath ⟨[18], 17, 19, 80, 0.3, "w", "f", 2⟩
      false = "M" ++ ratStr px ++ "," ++ ratStr py) ∧
    'C' ∉ (V1.generateGraphPath ⟨[18], 17, 19, 80, 0.3, "w", "f", 2⟩
      false).data ∧
    (∃ px py, V2.generateGraphPath ⟨[18], 17, 19⟩ false =
      "M" ++ ratStr px ++ "," ++ ratStr py) ∧
    'C' ∉ (V2.generateGraphPath ⟨[18], 17, 19⟩ false).data :=
  generateGraphPath_degenerate _ _ true 18 _ _ rfl rfl rfl rfl

/-- C10 counterexample: with min_temp = 20 above the effective high setpoint
15, adjustLowTemperature clamps the new low setpoint up to 20, and 20 is
dispatched even though it exceeds the effective high setpoint — the claimed
invariant "adjusted low ≤ effective high" fails without a consistency
assumption on the entity attributes. -/
theorem adjust_bounds_counterexample :
    adjustLowTemperature
      ⟨none, some 10, some 15, some 20, some 35⟩ ⟨none, none, none⟩ 1 =
      some 20 ∧
    jsNumOr (some (15 : ℚ)) 35 = 15 ∧
    ¬ ((20 : ℚ) ≤ 15) := by
  refine ⟨?_, ?_, by norm_num⟩
  · rw [adjustLowTemperature]
    simp only [jsNumOr, Option.getD]
    norm_num
  · rw [jsNumOr]
    norm_num

/-- C10 amended: provided the entity's effective bounds are consistent
(min_temp ≤ max_temp after defaulting to [7, 35], min_temp at most the
effective high setpoint, and the effective low setpoint at most max_temp),
every value stored and dispatched by the three adjusters lies within
[min_temp, max_temp], the adjusted low setpoint never exceeds the effective
high setpoint, and the adjusted high setpoint is never below the effective
low setpoint. Without those consistency hypotheses the claim fails (see the
counterexample). -/
theorem adjust_bounds (attrs : ClimateAttrs) (st : TempControlState)
    (amount : ℚ)
    (hmm : jsNumOr attrs.min_temp 7 ≤ jsNumOr attrs.max_temp 35)
    (hlh : jsNumOr attrs.min_temp 7 ≤
      st.localHighTemperature.getD (jsNumOr attrs.target_temp_high 35))
    (hll : st.localLowTemperature.getD (jsNumOr attrs.target_temp_low 7) ≤
      jsNumOr attrs.max_temp 35) :
    (∀ r, adjustTemperature attrs st amount = some r →
      jsNumOr attrs.min_temp 7 ≤ r ∧ r ≤ jsNumOr attrs.max_temp 35) ∧
    (∀ r, adjustLowTemperature attrs st amount = some r →
      jsNumOr attrs.min_temp 7 ≤ r ∧ r ≤ jsNumOr attrs.max_temp 35 ∧
      r ≤ st.localHighTemperature.getD (jsNumOr attrs.target_temp_high 35)) ∧
    (∀ r, adjustHighTemperature attrs st amount = some r →
      jsNumOr attrs.min_temp 7 ≤ r ∧ r ≤ jsNumOr attrs.max_temp 35 ∧
      st.localLowTemperature.getD (jsNumOr attrs.target_temp_low 7) ≤ r) := by
  refine ⟨?_, ?_, ?_⟩
  · intro r hr
    rw [adjustTemperature] at hr
    cases ht : attrs.temperature with
    | none => rw [ht] at hr; exact absurd hr (by simp)
    | some t =>
      rw [ht] at hr
      simp only [Option.some_inj] at hr
      subst hr
      constructor
      · exact le_max_left _ _
      · exact max_le hmm (min_le_left _ _)
  · intro r hr
    rw [adjustLowTemperature] at hr
    cases ht : attrs.target_temp_low with
    | none => rw [ht] at hr; exact absurd hr (by simp)
    | some tl =>
      rw [ht] at hr
      simp only [Option.some_inj] at hr
      subst hr
      refine ⟨le_max_left _ _, ?_, ?_⟩
      · exact max_le hmm (le_trans (min_le_left _ _) (min_le_left _ _))
      · exact max_le hlh (le_trans (min_le_left _ _) (min_le_right _ _))
  · intro r hr
    rw [adjustHighTemperature] at hr
    cases ht : attrs.target_temp_high with
    | none => rw [ht] at hr; exact absurd hr (by simp)
    | some th =>
      rw [ht] at hr
      simp only [Option.some_inj] at hr
      subst hr
      refine ⟨?_, ?_, ?_⟩
      · exact le_trans (le_max_left _ _) (le_max_left _ _)
      · exact max_le (max_le hmm hll) (min_le_left _ _)
      · exact le_trans (le_max_right _ _) (le_max_left _ _)

/-- Witness for adjust_bounds: default bounds [7, 35], setpoints 18/24, and
a large upward adjustment of 100 is clamped to 35, 24 and 35 respectively,
each within the claimed bounds. -/
theorem adjust_bounds_witness :
    (∀ r, adjustTemperature ⟨some 20, some 18, some 24, none, none⟩
        ⟨none, none, none⟩ 100 = some r →
      jsNumOr (none : Option ℚ) 7 ≤ r ∧ r ≤ jsNumOr (none : Option ℚ) 35) ∧
    (∀ r, adjustLowTemperature ⟨some 20, some 18, some 24, none, none⟩
        ⟨none, none, none⟩ 100 = some r →
      jsNumOr (none : Option ℚ) 7 ≤ r ∧ r ≤ jsNumOr (none : Option ℚ) 35 ∧
      r ≤ (Option.getD (none : Option ℚ)
        (jsNumOr (some (24 : ℚ)) 35))) ∧
    (∀ r, adjustHighTemperature ⟨some 20, some 18, some 24, none, none⟩
        ⟨none, none, none⟩ 100 = some r →
      jsNumOr (none : Option ℚ) 7 ≤ r ∧ r ≤ jsNumOr (none : Option ℚ) 35 ∧
      (Option.getD (none : Option ℚ) (jsNumOr (some (18 : ℚ)) 7)) ≤ r) :=
  adjust_bounds ⟨some 20, some 18, some 24, none, none⟩ ⟨none, none, none⟩
    100 (by norm_num [jsNumOr]) (by norm_num [jsNumOr])
    (by norm_num [jsNumOr])

/-- Witness for smoothData_length_preserved: a five-sample series smoothed
with window 3 keeps its length in both variants. -/
theorem smoothData_length_preserved_witness :
    (V1.smoothData (fun _ _ => 1) [10, 20, 10, 20, 10] 3).length =
      ([10, 20, 10, 20, 10] : List ℚ).length ∧
    (V2.smoothData [10, 20, 10, 20, 10] 3).length =
      ([10, 20, 10, 20, 10] : List ℚ).length :=
  smoothData_length_preserved (fun _ _ => 1) [10, 20, 10, 20, 10] 3

/-- Witness for scenarioA_flat_range: a concrete weight function and prior
state. -/
theorem scenarioA_flat_range_witness :
    (V1.updateGraphData (fun _ _ => 1) ⟨[], 0, 0, 80, 0.3, "w", "f", 2⟩
      (.ok [[some 18, some 18, some 18, some 18, some 18, some 18, some 18,
        some 18, some 18, some 18]])).graphMin = 17 ∧
    (V1.updateGraphData (fun _ _ => 1) ⟨[], 0, 0, 80, 0.3, "w", "f", 2⟩
      (.ok [[some 18, some 18, some 18, some 18, some 18, some 18, some 18,
        some 18, some 18, some 18]])).graphMax = 19 ∧
    (V1.updateGraphData (fun _ _ => 1) ⟨[], 0, 0, 80, 0.3, "w", "f", 2⟩
      (.ok [[some 18, some 18, some 18, some 18, some 18, some 18, some 18,
        some 18, some 18, some 18]])).graphMax -
      (V1.updateGraphData (fun _ _ => 1) ⟨[], 0, 0, 80, 0.3, "w", "f", 2⟩
      (.ok [[some 18, some 18, some 18, some 18, some 18, some 18, some 18,
        some 18, some 18, some 18]])).graphMin = 2 :=
  scenarioA_flat_range (fun _ _ => 1) ⟨[], 0, 0, 80, 0.3, "w", "f", 2⟩
